import Mathlib

/-!
Verification of `generate_image.py`: a shallow embedding in Lean 4 of the
credential-resolution, provider-selection, parameter-correction, retry and
file-naming logic of the image-generation CLI, together with proofs of the
specified properties.

Conventions of the embedding:
* Python optional strings (`None` or `str`) become `Option String`;
  Python truthiness (`None` and `""` are falsy) is `pyTruthy`.
* The process environment, the `.env` file and the user config file are
  explicit inputs; HTTP responses and the paid-provider outcome are
  explicit inputs (the code is single-threaded and performs no other I/O).
* Stdout is modelled as the list of printed lines; file writes as a list of
  `(path, bytes)` pairs; `sys.exit(n)` as the resulting exit code.
-/

namespace GenImage

/-- Python truthiness of an optional string: `None` and `""` are falsy. -/
def pyTruthy : Option String → Bool
  | none => false
  | some s => s ≠ ""

/-- Python `a or b` on optional strings: `a` if truthy, else `b`. -/
def pyOr (a b : Option String) : Option String :=
  if pyTruthy a then a else b

/-- Normalise a Python value to its truthiness class: falsy values become
`none`, so that `some ""` and `none` (both "missing") are identified. -/
def pyNorm (a : Option String) : Option String :=
  if pyTruthy a then a else none

/-- The whitespace characters stripped by Python `str.strip()`. -/
def isPySpace (c : Char) : Bool :=
  c = ' ' || c = '\t' || c = '\n' || c = '\r' || c = '\x0b' || c = '\x0c'

/-- Python `str.strip()` on a character list. -/
def pyStripList (l : List Char) : List Char :=
  ((l.dropWhile isPySpace).reverse.dropWhile isPySpace).reverse

/-- Python `s.startswith(p)`. -/
def strStartsWith (s p : String) : Bool :=
  p.data.isPrefixOf s.data

/-- `line.strip().split('=', 1)[1]`: everything after the first `=` of the
stripped line (total: empty when no `=` occurs, a case the call sites guard
against via `startswith`). -/
def envValue (line : String) : String :=
  String.mk (((pyStripList line.data).dropWhile (fun c => c != '=')).tail)

/-- The two credentials resolved by `load_api_keys`. -/
structure Keys where
  openai : Option String
  huggingface : Option String
deriving DecidableEq, Repr

/-- The three relevant process environment variables (`os.getenv`). -/
structure EnvVars where
  OPENAI_API_KEY : Option String
  HUGGINGFACE_API_KEY : Option String
  HF_TOKEN : Option String
deriving DecidableEq, Repr

/-- The `env` object of `~/.cursor/cli-config.json` (`dict.get` on the three
key names). -/
structure ConfigEnv where
  OPENAI_API_KEY : Option String
  HUGGINGFACE_API_KEY : Option String
  HF_TOKEN : Option String
deriving DecidableEq, Repr

/-- The observable states of `~/.cursor/cli-config.json`: missing, present
but unreadable, present but not valid JSON, or parsed JSON whose `env`
object (if any) is given. -/
inductive ConfigFile where
  | absent
  | unreadable
  | invalidJson
  | parsed (env : Option ConfigEnv)
deriving DecidableEq

/-- One iteration of the `.env` loop of `load_api_keys` (lines 35-39):
an `OPENAI_API_KEY=` line updates the openai slot with Python `or`; else a
`HUGGINGFACE_API_KEY=` or `HF_TOKEN=` line updates the huggingface slot. -/
def loadEnvStep (keys : Keys) (line : String) : Keys :=
  if strStartsWith line "OPENAI_API_KEY=" then
    { keys with openai := pyOr keys.openai (some (envValue line)) }
  else if strStartsWith line "HUGGINGFACE_API_KEY=" || strStartsWith line "HF_TOKEN=" then
    { keys with huggingface := pyOr keys.huggingface (some (envValue line)) }
  else
    keys

/-- The config-file stage of `load_api_keys` (lines 42-52): an absent,
unreadable or invalid file, or one without an `env` object, changes nothing
(the `except Exception: pass` handler); otherwise each slot is updated with
Python `or` from the `env` object. -/
def applyConfig (keys : Keys) : ConfigFile → Keys
  | ConfigFile.parsed (some e) =>
      { openai := pyOr keys.openai e.OPENAI_API_KEY,
        huggingface := pyOr (pyOr keys.huggingface e.HUGGINGFACE_API_KEY) e.HF_TOKEN }
  | _ => keys

/-- `load_api_keys` (lines 20-54): environment variables first, then the
`.env` file lines in order (when the file exists), then the user config
file, each later source filling only falsy slots via Python `or`. -/
def load_api_keys (envv : EnvVars) (dotenv : Option (List String))
    (config : ConfigFile) : Keys :=
  let keys : Keys :=
    { openai := envv.OPENAI_API_KEY,
      huggingface := pyOr envv.HUGGINGFACE_API_KEY envv.HF_TOKEN }
  let keys :=
    match dotenv with
    | none => keys
    | some lines => lines.foldl loadEnvStep keys
  applyConfig keys config

/-- Values carried by `OPENAI_API_KEY=` lines of the `.env` file, in order. -/
def openaiLineVals (lines : List String) : List (Option String) :=
  (lines.filter (fun l => strStartsWith l "OPENAI_API_KEY=")).map
    (fun l => some (envValue l))

/-- Values carried by `HUGGINGFACE_API_KEY=` or `HF_TOKEN=` lines of the
`.env` file, in order. -/
def hfLineVals (lines : List String) : List (Option String) :=
  (lines.filter
      (fun l => strStartsWith l "HUGGINGFACE_API_KEY=" || strStartsWith l "HF_TOKEN=")).map
    (fun l => some (envValue l))

/-- Modelled from the spec: the ordered candidate list for the openai key —
environment, then `.env` lines, then the config file. -/
def openaiCandidates (envv : EnvVars) (dotenv : Option (List String))
    (config : ConfigFile) : List (Option String) :=
  [envv.OPENAI_API_KEY]
    ++ (match dotenv with | none => [] | some lines => openaiLineVals lines)
    ++ (match config with
        | ConfigFile.parsed (some e) => [e.OPENAI_API_KEY]
        | _ => [])

/-- Modelled from the spec: the ordered candidate list for the huggingface
key — environment (`HUGGINGFACE_API_KEY` then `HF_TOKEN`), then `.env`
lines, then the config file (same two names in order). -/
def hfCandidates (envv : EnvVars) (dotenv : Option (List String))
    (config : ConfigFile) : List (Option String) :=
  [envv.HUGGINGFACE_API_KEY, envv.HF_TOKEN]
    ++ (match dotenv with | none => [] | some lines => hfLineVals lines)
    ++ (match config with
        | ConfigFile.parsed (some e) => [e.HUGGINGFACE_API_KEY, e.HF_TOKEN]
        | _ => [])

/-- Modelled from the spec: "first non-empty value found per key wins" —
the first truthy candidate, or `none` when there is none. -/
def firstTruthy : List (Option String) → Option String
  | [] => none
  | v :: vs => if pyTruthy v then v else firstTruthy vs

lemma firstTruthy_pyOr_cons (a b : Option String) (cs : List (Option String)) :
    firstTruthy (pyOr a b :: cs) = firstTruthy (a :: b :: cs) := by
  by_cases h : pyTruthy a = true <;> simp [firstTruthy, pyOr, h]

lemma pyNorm_foldl_pyOr (cs : List (Option String)) (acc : Option String) :
    pyNorm (cs.foldl pyOr acc) = firstTruthy (acc :: cs) := by
  induction cs generalizing acc with
  | nil =>
      by_cases h : pyTruthy acc = true <;> simp [firstTruthy, pyNorm, h]
  | cons c cs ih =>
      rw [List.foldl_cons, ih, firstTruthy_pyOr_cons]

lemma isPrefixOf_head {a : Char} {as l : List Char}
    (h : (a :: as).isPrefixOf l = true) : ∃ bs, l = a :: bs := by
  cases l with
  | nil => simp [List.isPrefixOf] at h
  | cons b bs =>
      simp [List.isPrefixOf] at h
      exact ⟨bs, by rw [h.1]⟩

/-- A line starting with `OPENAI_API_KEY=` cannot match the huggingface
branch of the `.env` loop. -/
lemma openai_line_not_hf {l : String}
    (h : strStartsWith l "OPENAI_API_KEY=" = true) :
    (strStartsWith l "HUGGINGFACE_API_KEY=" || strStartsWith l "HF_TOKEN=") = false := by
  unfold strStartsWith at h ⊢
  have h' : ('O' :: ("PENAI_API_KEY=" : String).data).isPrefixOf l.data = true := h
  obtain ⟨bs, hbs⟩ := isPrefixOf_head h'
  rw [hbs]
  have e1 : ("HUGGINGFACE_API_KEY=" : String).data
      = 'H' :: ("UGGINGFACE_API_KEY=" : String).data := rfl
  have e2 : ("HF_TOKEN=" : String).data = 'H' :: ("F_TOKEN=" : String).data := rfl
  have e3 : ('H' == 'O') = false := rfl
  rw [e1, e2]
  simp [List.isPrefixOf, e3]

lemma foldl_loadEnvStep_openai (lines : List String) (keys : Keys) :
    (lines.foldl loadEnvStep keys).openai
      = (openaiLineVals lines).foldl pyOr keys.openai := by
  induction lines generalizing keys with
  | nil => rfl
  | cons l ls ih =>
      by_cases h1 : strStartsWith l "OPENAI_API_KEY=" = true
      · simp [loadEnvStep, h1, openaiLineVals, List.filter_cons, ih]
      · by_cases h2 : (strStartsWith l "HUGGINGFACE_API_KEY="
            || strStartsWith l "HF_TOKEN=") = true
        · simp [loadEnvStep, h1, h2, openaiLineVals, List.filter_cons, ih]
        · simp [loadEnvStep, h1, h2, openaiLineVals, List.filter_cons, ih]

lemma foldl_loadEnvStep_hf (lines : List String) (keys : Keys) :
    (lines.foldl loadEnvStep keys).huggingface
      = (hfLineVals lines).foldl pyOr keys.huggingface := by
  induction lines generalizing keys with
  | nil => rfl
  | cons l ls ih =>
      by_cases h1 : strStartsWith l "OPENAI_API_KEY=" = true
      · have h2 := openai_line_not_hf h1
        simp [loadEnvStep, h1, hfLineVals, List.filter_cons, h2, ih]
      · by_cases h2 : (strStartsWith l "HUGGINGFACE_API_KEY="
            || strStartsWith l "HF_TOKEN=") = true
        · simp [loadEnvStep, h1, h2, hfLineVals, List.filter_cons, ih]
        · simp [loadEnvStep, h1, h2, hfLineVals, List.filter_cons, ih]

lemma load_api_keys_openai (envv : EnvVars) (dotenv : Option (List String))
    (config : ConfigFile) :
    pyNorm (load_api_keys envv dotenv config).openai
      = firstTruthy (openaiCandidates envv dotenv config) := by
  have hmain :
      (load_api_keys envv dotenv config).openai
        = (((match dotenv with | none => [] | some lines => openaiLineVals lines)
            ++ (match config with
                | ConfigFile.parsed (some e) => [e.OPENAI_API_KEY]
                | _ => [])).foldl pyOr envv.OPENAI_API_KEY) := by
    rw [List.foldl_append]
    cases config with
    | parsed oe =>
        cases oe with
        | none =>
            cases dotenv with
            | none => rfl
            | some lines =>
                simp [load_api_keys, applyConfig, foldl_loadEnvStep_openai]
        | some e =>
            cases dotenv with
            | none => rfl
            | some lines =>
                simp [load_api_keys, applyConfig, foldl_loadEnvStep_openai]
    | absent =>
        cases dotenv with
        | none => rfl
        | some lines => simp [load_api_keys, applyConfig, foldl_loadEnvStep_openai]
    | unreadable =>
        cases dotenv with
        | none => rfl
        | some lines => simp [load_api_keys, applyConfig, foldl_loadEnvStep_openai]
    | invalidJson =>
        cases dotenv with
        | none => rfl
        | some lines => simp [load_api_keys, applyConfig, foldl_loadEnvStep_openai]
  rw [hmain, pyNorm_foldl_pyOr]
  rfl

lemma load_api_keys_hf (envv : EnvVars) (dotenv : Option (List String))
    (config : ConfigFile) :
    pyNorm (load_api_keys envv dotenv config).huggingface
      = firstTruthy (hfCandidates envv dotenv config) := by
  have hmain :
      (load_api_keys envv dotenv config).huggingface
        = (((match dotenv with | none => [] | some lines => hfLineVals lines)
            ++ (match config with
                | ConfigFile.parsed (some e) => [e.HUGGINGFACE_API_KEY, e.HF_TOKEN]
                | _ => [])).foldl pyOr
              (pyOr envv.HUGGINGFACE_API_KEY envv.HF_TOKEN)) := by
    rw [List.foldl_append]
    cases config with
    | parsed oe =>
        cases oe with
        | none =>
            cases dotenv with
            | none => rfl
            | some lines => simp [load_api_keys, applyConfig, foldl_loadEnvStep_hf]
        | some e =>
            cases dotenv with
            | none => rfl
            | some lines => simp [load_api_keys, applyConfig, foldl_loadEnvStep_hf]
    | absent =>
        cases dotenv with
        | none => rfl
        | some lines => simp [load_api_keys, applyConfig, foldl_loadEnvStep_hf]
    | unreadable =>
        cases dotenv with
        | none => rfl
        | some lines => simp [load_api_keys, applyConfig, foldl_loadEnvStep_hf]
    | invalidJson =>
        cases dotenv with
        | none => rfl
        | some lines => simp [load_api_keys, applyConfig, foldl_loadEnvStep_hf]
  rw [hmain, pyNorm_foldl_pyOr, firstTruthy_pyOr_cons]
  rfl

lemma firstTruthy_all_falsy {cs : List (Option String)}
    (h : ∀ v ∈ cs, pyTruthy v = false) : firstTruthy cs = none := by
  induction cs with
  | nil => rfl
  | cons c cs ih =>
      have hc := h c (List.mem_cons_self c cs)
      simp only [firstTruthy, hc]
      exact ih (fun v hv => h v (List.mem_cons_of_mem c hv))

lemma pyTruthy_of_pyNorm_none {a : Option String} (h : pyNorm a = none) :
    pyTruthy a = false := by
  by_cases ht : pyTruthy a = true
  · cases a with
    | none => simp [pyTruthy] at ht
    | some s => simp [pyNorm, ht] at h
  · simpa using ht

/-- The character filter of the sanitization step:
`c.isascii() and (c.isalnum() or c in (' ', '-', '_'))` (ASCII alphanumerics
coincide with Lean's `Char.isAlphanum` under the ASCII guard). -/
def isAllowedChar (c : Char) : Bool :=
  c.toNat < 128 && (c.isAlphanum || c = ' ' || c = '-' || c = '_')

/-- The `safe_prompt` computation (lines 104-105 and 176-177): truncate the
prompt to its first 50 characters, replace every disallowed character by
`_`, strip surrounding whitespace, then replace spaces by `_`. -/
def safe_prompt (prompt : String) : String :=
  String.mk
    ((pyStripList
        ((prompt.data.take 50).map (fun c => if isAllowedChar c then c else '_'))).map
      (fun c => if c = ' ' then '_' else c))

/-- The filename built by `generate_image_huggingface` (line 106). -/
def hfFilename (timestamp prompt : String) : String :=
  timestamp ++ "_HF_" ++ safe_prompt prompt ++ ".png"

/-- The filename built by `generate_image_openai` (line 178). -/
def openaiFilename (timestamp prompt : String) : String :=
  timestamp ++ "_" ++ safe_prompt prompt ++ ".png"

/-- `Path(p).expanduser()` for the cases the program meets: a leading `~`
component is replaced by the home directory. -/
def expandUser (home p : String) : String :=
  if p = "~" then home
  else if strStartsWith p "~/" then home ++ String.mk p.data.tail
  else p

/-- `Path(dir) / file` rendered as a string path. -/
def joinPath (dir file : String) : String := dir ++ "/" ++ file

/-- An HTTP response of the free provider's inference endpoint: status
code, raw body bytes, and the result of `response.json().get('error', ...)`
— `none` when the body is not JSON (so `.json()` raises), otherwise the
optional `error` field. -/
structure HfResponse where
  status : Nat
  content : List Nat
  jsonError : Option (Option String)
deriving DecidableEq, Repr

/-- One HTTP POST issued by `generate_image_huggingface`: URL, bearer
token, and the `inputs` field of the JSON body. -/
structure HfRequest where
  url : String
  bearer : String
  inputs : String
deriving DecidableEq, Repr

/-- Observable trace of one `generate_image_huggingface` call. -/
structure HfRun where
  requests : List HfRequest
  sleeps : List Nat
  output : List String
  writes : List (String × List Nat)
  result : Option String
deriving DecidableEq, Repr

/-- The final response consumed by `generate_image_huggingface`: the retry
response when the first answer was `503`, the first answer otherwise. -/
def finalHfResponse (resp1 resp2 : HfResponse) : HfResponse :=
  if resp1.status = 503 then resp2 else resp1

/-- `generate_image_huggingface` (lines 57-123). The two possible HTTP
responses (first attempt, and the retry used only after a `503`) are
explicit inputs; network-transport failures are outside the model. The
`except` branch covers a `response.json()` failure (`jsonError = none`);
its printed message interpolates the exception text, abstracted here. -/
def generate_image_huggingface (prompt hf_token model output_dir timestamp home : String)
    (resp1 resp2 : HfResponse) : HfRun :=
  let api_url := "https://api-inference.huggingface.co/models/" ++ model
  let req : HfRequest := { url := api_url, bearer := hf_token, inputs := prompt }
  let header := ["🎨 Generating image via Hugging Face...",
                 "📝 Prompt: " ++ prompt,
                 "🤖 Model: " ++ model,
                 "💰 Cost: FREE!"]
  let retried := resp1.status = 503
  let reqs := if retried then [req, req] else [req]
  let sleeps : List Nat := if retried then [20] else []
  let loading : List String :=
    if retried then
      ["⏳ Model is loading on HuggingFace servers, this may take ~20 seconds..."]
    else []
  let final := finalHfResponse resp1 resp2
  if final.status ≠ 200 then
    match final.jsonError with
    | some e =>
        { requests := reqs, sleeps := sleeps,
          output := header ++ loading
            ++ ["❌ HuggingFace API error: " ++ e.getD "Unknown error"],
          writes := [], result := none }
    | none =>
        { requests := reqs, sleeps := sleeps,
          output := header ++ loading
            ++ ["❌ Error generating via HuggingFace: <exception>"],
          writes := [], result := none }
  else
    let filename := hfFilename timestamp prompt
    let path := joinPath (expandUser home output_dir) filename
    { requests := reqs, sleeps := sleeps,
      output := header ++ loading
        ++ ["✅ Successfully saved: " ++ path, "💰 Cost: $0.00 (free)"],
      writes := [(path, final.content)], result := some path }

/-- Outcome of the paid-provider interaction: an exception anywhere in the
generation call or the image download, or a successful generation yielding
the image URL and the downloaded bytes. -/
inductive OpenaiOutcome where
  | failure
  | ok (image_url : String) (bytes : List Nat)
deriving DecidableEq, Repr

/-- The `request_params` dict sent to `client.images.generate`
(lines 153-162): `quality` is included only for `dall-e-3`. -/
structure OaParams where
  model : String
  prompt : String
  size : String
  n : Nat
  quality : Option String
deriving DecidableEq, Repr

/-- Observable trace of one `generate_image_openai` call. -/
structure OaRun where
  request_params : OaParams
  output : List String
  writes : List (String × List Nat)
  result : Option String
deriving DecidableEq, Repr

/-- `generate_image_openai` (lines 126-209). The API outcome is an explicit
input; the cost-report line (floating-point formatting, lines 193-200) is
elided from the modelled output, and the exception text of the `except`
branch is abstracted. -/
def generate_image_openai (prompt api_key size quality model output_dir timestamp home : String)
    (outcome : OpenaiOutcome) : OaRun :=
  let header := ["🎨 Generating image via OpenAI DALL-E...",
                 "📝 Prompt: " ++ prompt,
                 "📐 Size: " ++ size,
                 "✨ Quality: " ++ quality,
                 "🤖 Model: " ++ model]
  let request_params : OaParams :=
    { model := model, prompt := prompt, size := size, n := 1,
      quality := if model = "dall-e-3" then some quality else none }
  match outcome with
  | OpenaiOutcome.failure =>
      { request_params := request_params,
        output := header ++ ["❌ Error generating via OpenAI: <exception>",
                             "Error details:"],
        writes := [], result := none }
  | OpenaiOutcome.ok image_url bytes =>
      let filename := openaiFilename timestamp prompt
      let path := joinPath (expandUser home output_dir) filename
      { request_params := request_params,
        output := header ++ ["✅ Successfully saved: " ++ path,
                             "🔗 Original URL: " ++ image_url],
        writes := [(path, bytes)], result := some path }

/-- The quality correction of `main` (lines 340-342). -/
def correctQuality (model quality : String) : String :=
  if model = "dall-e-2" ∧ quality = "hd" then "standard" else quality

/-- The size correction of `main` (lines 344-346). -/
def correctSize (model size : String) : String :=
  if model = "dall-e-2" ∧ (size = "1792x1024" ∨ size = "1024x1792") then "1024x1024"
  else size

def warnHd : String :=
  "⚠️  Warning: DALL-E 2 doesn\x27t support HD quality, using standard"

def warnSize : String :=
  "⚠️  Warning: DALL-E 2 doesn\x27t support large sizes, using 1024x1024"

/-- The suggested paid-provider invocation printed in `auto` mode
(lines 309 and 325), with the original prompt embedded. -/
def suggestOpenai (prompt : String) : String :=
  "   python3 generate_image.py \"" ++ prompt ++ "\" --provider openai"

/-- The `--provider` choices. -/
inductive Provider where
  | auto
  | huggingface
  | openai
deriving DecidableEq, Repr

/-- Parsed command-line arguments (argparse restricts `provider`, `size`,
`quality` and `model` to their listed choices; `size`/`quality`/`model` are
kept as strings as in the source). -/
structure Args where
  prompt : String
  provider : Provider
  hf_model : String
  size : String
  quality : String
  model : String
  output_dir : String
deriving DecidableEq, Repr

/-- The arguments `main` passes to `generate_image_openai` (lines 348-355). -/
structure OaCall where
  prompt : String
  api_key : String
  size : String
  quality : String
  model : String
  output_dir : String
deriving DecidableEq, Repr

/-- Observable trace of one `main` invocation. -/
structure MainRun where
  exitCode : Nat
  hfRuns : List HfRun
  oaRuns : List OaRun
  oaCall : Option OaCall
  output : List String
  savedPath : Option String
deriving DecidableEq, Repr

/-- `main` (lines 212-361) after argument parsing and `load_api_keys`: the
provider-selection, correction and dispatch logic. `keys` is the resolved
credential set; the HTTP responses and paid-provider outcome are explicit
inputs. -/
def main_run (args : Args) (keys : Keys) (resp1 resp2 : HfResponse)
    (outcome : OpenaiOutcome) (timestamp home : String) : MainRun :=
  if args.provider = Provider.auto ∨ args.provider = Provider.huggingface then
    if pyTruthy keys.huggingface then
      let run := generate_image_huggingface args.prompt (keys.huggingface.getD "")
        args.hf_model args.output_dir timestamp home resp1 resp2
      match run.result with
      | some path =>
          { exitCode := 0, hfRuns := [run], oaRuns := [], oaCall := none,
            output := run.output, savedPath := some path }
      | none =>
          if args.provider = Provider.huggingface then
            { exitCode := 1, hfRuns := [run], oaRuns := [], oaCall := none,
              output := run.output ++ ["❌ Failed to generate via HuggingFace"],
              savedPath := none }
          else
            { exitCode := 1, hfRuns := [run], oaRuns := [], oaCall := none,
              output := run.output ++
                ["❌ HuggingFace generation failed",
                 "💡 You can try paid OpenAI DALL-E API:",
                 suggestOpenai args.prompt,
                 "💰 Cost: ~$0.02-0.04 per image (DALL-E 2/3)",
                 "ℹ️  Requires OPENAI_API_KEY in ~/.cursor/cli-config.json"],
              savedPath := none }
    else
      if args.provider = Provider.huggingface then
        { exitCode := 1, hfRuns := [], oaRuns := [], oaCall := none,
          output := ["❌ HuggingFace token not found!",
                     "Add HF_TOKEN to ~/.cursor/cli-config.json:",
                     "\x7b\"env\": \x7b\"HF_TOKEN\": \"your_token\"\x7d\x7d",
                     "Get token: https://huggingface.co/settings/tokens"],
          savedPath := none }
      else
        { exitCode := 1, hfRuns := [], oaRuns := [], oaCall := none,
          output := ["⚠️  HuggingFace token not found",
                     "💡 You can try paid OpenAI DALL-E API:",
                     suggestOpenai args.prompt,
                     "💰 Cost: ~$0.02-0.04 per image",
                     "ℹ️  Requires OPENAI_API_KEY in ~/.cursor/cli-config.json"],
          savedPath := none }
  else
    if pyTruthy keys.openai = false then
      { exitCode := 1, hfRuns := [], oaRuns := [], oaCall := none,
        output := ["❌ OpenAI API key not found!",
                   "Add OPENAI_API_KEY to ~/.cursor/cli-config.json:",
                   "\x7b\"env\": \x7b\"OPENAI_API_KEY\": \"sk-your-key\"\x7d\x7d",
                   "Get key: https://platform.openai.com/api-keys"],
        savedPath := none }
    else
      let qWarn : List String :=
        if args.model = "dall-e-2" ∧ args.quality = "hd" then [warnHd] else []
      let quality := correctQuality args.model args.quality
      let sWarn : List String :=
        if args.model = "dall-e-2" ∧ (args.size = "1792x1024" ∨ args.size = "1024x1792")
        then [warnSize] else []
      let size := correctSize args.model args.size
      let call : OaCall :=
        { prompt := args.prompt, api_key := keys.openai.getD "", size := size,
          quality := quality, model := args.model, output_dir := args.output_dir }
      let run := generate_image_openai call.prompt call.api_key call.size call.quality
        call.model call.output_dir timestamp home outcome
      match run.result with
      | some path =>
          { exitCode := 0, hfRuns := [], oaRuns := [run], oaCall := some call,
            output := qWarn ++ sWarn ++ run.output, savedPath := some path }
      | none =>
          { exitCode := 1, hfRuns := [], oaRuns := [run], oaCall := some call,
            output := qWarn ++ sWarn ++ run.output ++ ["❌ Failed to generate image"],
            savedPath := none }

lemma pyStripList_sublist (l : List Char) : (pyStripList l).Sublist l := by
  unfold pyStripList
  have h1 : (l.dropWhile isPySpace).Sublist l := List.dropWhile_sublist _
  have h2 : (((l.dropWhile isPySpace).reverse.dropWhile isPySpace).reverse).Sublist
      ((l.dropWhile isPySpace).reverse.reverse) := by
    rw [List.reverse_sublist]
    exact List.dropWhile_sublist _
  rw [List.reverse_reverse] at h2
  exact h2.trans h1

lemma safe_prompt_length_le (prompt : String) : (safe_prompt prompt).length ≤ 50 := by
  show (List.map _ (pyStripList _)).length ≤ 50
  rw [List.length_map]
  refine le_trans ((pyStripList_sublist _).length_le) ?_
  rw [List.length_map, List.length_take]
  exact min_le_left _ _

lemma safe_prompt_chars (prompt : String) :
    ∀ c ∈ (safe_prompt prompt).data, c.isAlphanum = true ∨ c = '-' ∨ c = '_' := by
  intro c hc
  obtain ⟨c', hc', rfl⟩ := List.mem_map.mp hc
  have hc'' := (pyStripList_sublist _).subset hc'
  obtain ⟨a, _, rfl⟩ := List.mem_map.mp hc''
  by_cases hA : isAllowedChar a = true
  · rw [if_pos hA]
    unfold isAllowedChar at hA
    obtain ⟨_, h2⟩ := Bool.and_eq_true_iff.mp hA
    by_cases hsp : a = ' '
    · right; right; simp [hsp]
    · rcases Bool.or_eq_true_iff.mp h2 with h3 | hUnd
      · rcases Bool.or_eq_true_iff.mp h3 with h4 | hDash
        · rcases Bool.or_eq_true_iff.mp h4 with h5 | hSp
          · left; rw [if_neg hsp]; exact h5
          · exact absurd (of_decide_eq_true hSp) hsp
        · right; left; rw [if_neg hsp]; exact of_decide_eq_true hDash
      · right; right; rw [if_neg hsp]; exact of_decide_eq_true hUnd
  · rw [if_neg hA, if_neg (by decide : ¬('_' = ' '))]
    right; right; rfl

/-- C8: the parameter-correction step is idempotent — applying the
quality/size correction twice yields the same corrected request as applying
it once. -/
theorem correction_idempotent (model quality size : String) :
    correctQuality model (correctQuality model quality) = correctQuality model quality
    ∧ correctSize model (correctSize model size) = correctSize model size := by
  constructor
  · by_cases h : model = "dall-e-2" ∧ quality = "hd"
    · have hin : correctQuality model quality = "standard" := by
        rw [correctQuality, if_pos h]
      rw [hin, correctQuality,
        if_neg (fun hc => absurd hc.2 (by decide : ¬("standard" : String) = "hd"))]
    · have hq : correctQuality model quality = quality := by
        rw [correctQuality, if_neg h]
      rw [hq, hq]
  · by_cases h : model = "dall-e-2" ∧ (size = "1792x1024" ∨ size = "1024x1792")
    · have hin : correctSize model size = "1024x1024" := by
        rw [correctSize, if_pos h]
      rw [hin, correctSize, if_neg (fun hc => by
        rcases hc.2 with h2 | h2 <;> exact absurd h2 (by decide))]
    · have hs : correctSize model size = size := by
        rw [correctSize, if_neg h]
      rw [hs, hs]

/-- C9: the outbound paid-provider request parameters include the `quality`
field if and only if the model is `dall-e-3`; for `dall-e-2` the quality
value is dropped entirely, whatever the caller passed. -/
theorem quality_only_dalle3 (prompt api_key size quality model output_dir ts home : String)
    (oc : OpenaiOutcome) :
    ((generate_image_openai prompt api_key size quality model output_dir ts home oc).request_params.quality
        = if model = "dall-e-3" then some quality else none)
    ∧ (((generate_image_openai prompt api_key size quality model output_dir ts home oc).request_params.quality).isSome
          = true ↔ model = "dall-e-3")
    ∧ (model = "dall-e-2" →
        (generate_image_openai prompt api_key size quality model output_dir ts home oc).request_params.quality
          = none) := by
  have hq :
      (generate_image_openai prompt api_key size quality model output_dir ts home oc).request_params.quality
        = if model = "dall-e-3" then some quality else none := by
    cases oc <;> rfl
  refine ⟨hq, ?_, ?_⟩
  · rw [hq]
    by_cases h : model = "dall-e-3" <;> simp [h]
  · intro hm
    rw [hq, if_neg (by rw [hm]; decide)]

theorem quality_only_dalle3_witness :
    (generate_image_openai "p" "k" "1024x1024" "hd" "dall-e-2" "out" "TS" "/h"
        OpenaiOutcome.failure).request_params.quality = none :=
  (quality_only_dalle3 "p" "k" "1024x1024" "hd" "dall-e-2" "out" "TS" "/h"
    OpenaiOutcome.failure).2.2 rfl

/-- C4: a `503` on the first free-provider request triggers exactly one
20-second wait and one retry of the identical request; any non-200 final
response is a terminal failure (no further request) whose body is parsed
for an error message; without a `503` only one request is made. -/
theorem hf_retry_once (prompt token model dir ts home : String) (r1 r2 : HfResponse) :
    (r1.status = 503 →
        (generate_image_huggingface prompt token model dir ts home r1 r2).sleeps = [20]
        ∧ (generate_image_huggingface prompt token model dir ts home r1 r2).requests
            = [{ url := "https://api-inference.huggingface.co/models/" ++ model,
                 bearer := token, inputs := prompt },
               { url := "https://api-inference.huggingface.co/models/" ++ model,
                 bearer := token, inputs := prompt }]
        ∧ (r2.status ≠ 200 →
            (generate_image_huggingface prompt token model dir ts home r1 r2).result = none
            ∧ (∀ e, r2.jsonError = some e →
                ("❌ HuggingFace API error: " ++ e.getD "Unknown error")
                  ∈ (generate_image_huggingface prompt token model dir ts home r1 r2).output)))
    ∧ (r1.status ≠ 503 →
        (generate_image_huggingface prompt token model dir ts home r1 r2).sleeps = []
        ∧ (generate_image_huggingface prompt token model dir ts home r1 r2).requests
            = [{ url := "https://api-inference.huggingface.co/models/" ++ model,
                 bearer := token, inputs := prompt }]
        ∧ (r1.status ≠ 200 →
            (generate_image_huggingface prompt token model dir ts home r1 r2).result = none))
    ∧ (generate_image_huggingface prompt token model dir ts home r1 r2).requests.length ≤ 2 := by
  unfold generate_image_huggingface finalHfResponse
  by_cases h1 : r1.status = 503
  · simp only [h1, if_true, ite_true]
    by_cases h2 : r2.status = 200
    · simp [h2]
    · cases hj : r2.jsonError <;> simp [h2, hj]
  · simp only [h1, if_false, ite_false]
    by_cases h2 : r1.status = 200
    · simp [h2]
    · cases hj : r1.jsonError <;> simp [h1, h2, hj]

theorem hf_retry_once_witness :
    (generate_image_huggingface "p" "t" "m" "out" "TS" "/h"
        { status := 503, content := [], jsonError := none }
        { status := 500, content := [], jsonError := some (some "busy") }).sleeps = [20]
    ∧ (generate_image_huggingface "p" "t" "m" "out" "TS" "/h"
        { status := 503, content := [], jsonError := none }
        { status := 500, content := [], jsonError := some (some "busy") }).result = none
    ∧ ("❌ HuggingFace API error: busy"
        ∈ (generate_image_huggingface "p" "t" "m" "out" "TS" "/h"
            { status := 503, content := [], jsonError := none }
            { status := 500, content := [], jsonError := some (some "busy") }).output) := by
  have h := hf_retry_once "p" "t" "m" "out" "TS" "/h"
    { status := 503, content := [], jsonError := none }
    { status := 500, content := [], jsonError := some (some "busy") }
  have h503 := h.1 rfl
  have hfail := h503.2.2 (by decide)
  exact ⟨h503.1, hfail.1, by
    have := hfail.2 (some "busy") rfl
    simpa using this⟩

/-- C6 (amended): on success, the returned path is exactly the single
written file, whose content is the provider's response bytes — so the file
exists and is non-empty whenever the response body is non-empty; on every
failure path nothing is written. -/
theorem files_on_success_only (prompt token model dir ts home : String)
    (r1 r2 : HfResponse) (prompt2 key size quality model2 dir2 ts2 home2 : String)
    (oc : OpenaiOutcome) :
    (∀ path, (generate_image_huggingface prompt token model dir ts home r1 r2).result = some path →
        (generate_image_huggingface prompt token model dir ts home r1 r2).writes
          = [(path, (finalHfResponse r1 r2).content)])
    ∧ ((generate_image_huggingface prompt token model dir ts home r1 r2).result = none →
        (generate_image_huggingface prompt token model dir ts home r1 r2).writes = [])
    ∧ (∀ path url bytes, oc = OpenaiOutcome.ok url bytes →
        (generate_image_openai prompt2 key size quality model2 dir2 ts2 home2 oc).result = some path →
        (generate_image_openai prompt2 key size quality model2 dir2 ts2 home2 oc).writes
          = [(path, bytes)])
    ∧ ((generate_image_openai prompt2 key size quality model2 dir2 ts2 home2 oc).result = none →
        (generate_image_openai prompt2 key size quality model2 dir2 ts2 home2 oc).writes = []) := by
  refine ⟨?_, ?_, ?_, ?_⟩
  · intro path hp
    unfold generate_image_huggingface at hp ⊢
    by_cases h2 : (finalHfResponse r1 r2).status = 200
    · simp only [h2, ne_eq, not_true_eq_false, if_false, ite_false] at hp ⊢
      simp only [Option.some.injEq] at hp
      rw [← hp]
    · simp only [h2, ne_eq, not_false_eq_true, if_true, ite_true] at hp
      cases hj : (finalHfResponse r1 r2).jsonError <;> rw [hj] at hp <;> simp at hp
  · intro hp
    unfold generate_image_huggingface at hp ⊢
    by_cases h2 : (finalHfResponse r1 r2).status = 200
    · simp only [h2, ne_eq, not_true_eq_false, if_false, ite_false] at hp
      simp at hp
    · simp only [h2, ne_eq, not_false_eq_true, if_true, ite_true]
      cases hj : (finalHfResponse r1 r2).jsonError <;> simp
  · intro path url bytes hoc hp
    subst hoc
    unfold generate_image_openai at hp ⊢
    simp only [Option.some.injEq] at hp
    rw [← hp]
  · intro hp
    cases oc with
    | failure => rfl
    | ok url bytes =>
        unfold generate_image_openai at hp
        simp at hp

theorem files_on_success_only_witness :
    (generate_image_huggingface "p" "t" "m" "out" "TS" "/h"
        { status := 200, content := [9, 9], jsonError := none }
        { status := 200, content := [], jsonError := none }).writes
      = [("out/TS_HF_p.png", [9, 9])]
    ∧ (generate_image_openai "p" "k" "1024x1024" "standard" "dall-e-2" "out" "TS" "/h"
        OpenaiOutcome.failure).writes = [] := by
  constructor
  · exact (files_on_success_only "p" "t" "m" "out" "TS" "/h"
      { status := 200, content := [9, 9], jsonError := none }
      { status := 200, content := [], jsonError := none }
      "p" "k" "1024x1024" "standard" "dall-e-2" "out" "TS" "/h"
      OpenaiOutcome.failure).1 "out/TS_HF_p.png" rfl
  · exact (files_on_success_only "p" "t" "m" "out" "TS" "/h"
      { status := 200, content := [9, 9], jsonError := none }
      { status := 200, content := [], jsonError := none }
      "p" "k" "1024x1024" "standard" "dall-e-2" "out" "TS" "/h"
      OpenaiOutcome.failure).2.2.2 rfl

/-- C6 counterexample: a `200` response whose body is empty is a successful
path (a path is returned, the process will exit 0), yet the file written at
that path is empty — the claim's "non-empty file" fails. -/
theorem saved_file_nonempty_cex :
    ((generate_image_huggingface "p" "t" "m" "out" "TS" "/h"
        { status := 200, content := [], jsonError := none }
        { status := 200, content := [], jsonError := none }).result).isSome = true
    ∧ (generate_image_huggingface "p" "t" "m" "out" "TS" "/h"
        { status := 200, content := [], jsonError := none }
        { status := 200, content := [], jsonError := none }).writes
      = [("out/TS_HF_p.png", [])] := by
  constructor <;> rfl

/-- C7 counterexample: for the prompt `"Cat/Space?? 2024"` the sanitized
prefix is `Cat_Space___2024` (each of `/`, the two `?` and the space map to
their own underscore, none collapsed), not `Cat_Space_2024`. -/
theorem sanitize_cat_space_cex :
    safe_prompt "Cat/Space?? 2024" = "Cat_Space___2024"
    ∧ safe_prompt "Cat/Space?? 2024" ≠ "Cat_Space_2024" := by
  refine ⟨rfl, ?_⟩
  intro h
  rw [show safe_prompt "Cat/Space?? 2024" = "Cat_Space___2024" from rfl] at h
  exact absurd h (by decide)

/-- C7 (amended): the saved filename is
`<timestamp>[_HF]_<sanitized prompt prefix>.png` where the sanitized prefix
is at most 50 characters, contains only ASCII alphanumerics, hyphens and
underscores (spaces and all other characters having become underscores, one
each), and the `_HF` infix distinguishes the free provider's filename; for
`"Cat/Space?? 2024"` the prefix is `Cat_Space___2024`. -/
theorem filename_format (timestamp prompt : String) :
    hfFilename timestamp prompt = timestamp ++ "_HF_" ++ safe_prompt prompt ++ ".png"
    ∧ openaiFilename timestamp prompt = timestamp ++ "_" ++ safe_prompt prompt ++ ".png"
    ∧ (safe_prompt prompt).length ≤ 50
    ∧ (∀ c ∈ (safe_prompt prompt).data, c.isAlphanum = true ∨ c = '-' ∨ c = '_')
    ∧ hfFilename timestamp prompt ≠ openaiFilename timestamp prompt
    ∧ safe_prompt "Cat/Space?? 2024" = "Cat_Space___2024" := by
  refine ⟨rfl, rfl, safe_prompt_length_le prompt, safe_prompt_chars prompt, ?_, rfl⟩
  intro h
  have hlen := congrArg String.length h
  rw [hfFilename, openaiFilename] at hlen
  simp only [String.length_append] at hlen
  rw [show ("_HF_" : String).length = 4 from rfl,
    show ("_" : String).length = 1 from rfl] at hlen
  omega

theorem filename_format_witness :
    (∀ c ∈ (safe_prompt "a b!c").data, c.isAlphanum = true ∨ c = '-' ∨ c = '_')
    ∧ hfFilename "TS" "a b!c" ≠ openaiFilename "TS" "a b!c" :=
  ⟨(filename_format "TS" "a b!c").2.2.2.1, (filename_format "TS" "a b!c").2.2.2.2.1⟩

/-- C2: per key, credential resolution returns the first non-empty value in
the order environment, then `.env` file, then config file; a later source
never overrides an earlier non-empty value, and when every source lacks the
key the credential is absent (falsy). -/
theorem credential_priority (envv : EnvVars) (dotenv : Option (List String))
    (config : ConfigFile) :
    pyNorm (load_api_keys envv dotenv config).openai
        = firstTruthy (openaiCandidates envv dotenv config)
    ∧ pyNorm (load_api_keys envv dotenv config).huggingface
        = firstTruthy (hfCandidates envv dotenv config)
    ∧ ((∀ v ∈ openaiCandidates envv dotenv config, pyTruthy v = false) →
        pyTruthy (load_api_keys envv dotenv config).openai = false)
    ∧ ((∀ v ∈ hfCandidates envv dotenv config, pyTruthy v = false) →
        pyTruthy (load_api_keys envv dotenv config).huggingface = false) := by
  refine ⟨load_api_keys_openai envv dotenv config, load_api_keys_hf envv dotenv config,
    ?_, ?_⟩
  · intro h
    apply pyTruthy_of_pyNorm_none
    rw [load_api_keys_openai]
    exact firstTruthy_all_falsy h
  · intro h
    apply pyTruthy_of_pyNorm_none
    rw [load_api_keys_hf]
    exact firstTruthy_all_falsy h

theorem credential_priority_witness :
    pyNorm (load_api_keys
        { OPENAI_API_KEY := some "", HUGGINGFACE_API_KEY := none, HF_TOKEN := none }
        (some ["OPENAI_API_KEY=fromdotenv", "HF_TOKEN=hftok"])
        (ConfigFile.parsed (some
          { OPENAI_API_KEY := some "cfg", HUGGINGFACE_API_KEY := none, HF_TOKEN := none }))).openai
      = some "fromdotenv"
    ∧ pyTruthy (load_api_keys
        { OPENAI_API_KEY := none, HUGGINGFACE_API_KEY := none, HF_TOKEN := none }
        none ConfigFile.absent).huggingface = false := by
  constructor
  · have h := (credential_priority
      { OPENAI_API_KEY := some "", HUGGINGFACE_API_KEY := none, HF_TOKEN := none }
      (some ["OPENAI_API_KEY=fromdotenv", "HF_TOKEN=hftok"])
      (ConfigFile.parsed (some
        { OPENAI_API_KEY := some "cfg", HUGGINGFACE_API_KEY := none, HF_TOKEN := none }))).1
    rw [h]
    rfl
  · exact (credential_priority
      { OPENAI_API_KEY := none, HUGGINGFACE_API_KEY := none, HF_TOKEN := none }
      none ConfigFile.absent).2.2.2 (by decide)

/-- C10: a missing, unreadable or invalid config file, or one whose JSON
lacks the `env` object, is treated exactly as an absent config file — the
error is swallowed and `load_api_keys` still returns a credential set. -/
theorem config_malformed_ignored (envv : EnvVars) (dotenv : Option (List String))
    (c : ConfigFile)
    (h : c = ConfigFile.unreadable ∨ c = ConfigFile.invalidJson
        ∨ c = ConfigFile.parsed none) :
    load_api_keys envv dotenv c = load_api_keys envv dotenv ConfigFile.absent := by
  rcases h with h | h | h <;> subst h <;> rfl

theorem config_malformed_ignored_witness :
    load_api_keys
        { OPENAI_API_KEY := some "a", HUGGINGFACE_API_KEY := none, HF_TOKEN := some "b" }
        (some ["HF_TOKEN=x"]) ConfigFile.invalidJson
      = load_api_keys
        { OPENAI_API_KEY := some "a", HUGGINGFACE_API_KEY := none, HF_TOKEN := some "b" }
        (some ["HF_TOKEN=x"]) ConfigFile.absent :=
  config_malformed_ignored
    { OPENAI_API_KEY := some "a", HUGGINGFACE_API_KEY := none, HF_TOKEN := some "b" }
    (some ["HF_TOKEN=x"]) ConfigFile.invalidJson (Or.inr (Or.inl rfl))
lemma oa_request_size (prompt api_key size quality model output_dir ts home : String)
    (oc : OpenaiOutcome) :
    (generate_image_openai prompt api_key size quality model output_dir ts home oc).request_params.size
      = size := by
  cases oc <;> rfl

/-- C5: the process exits 0 exactly when an image file was saved; every
failure path exits 1. -/
theorem exit_zero_iff_saved (args : Args) (keys : Keys) (r1 r2 : HfResponse)
    (oc : OpenaiOutcome) (ts home : String) :
    (main_run args keys r1 r2 oc ts home).exitCode = 0
      ↔ ((main_run args keys r1 r2 oc ts home).savedPath).isSome = true := by
  obtain ⟨p, prov, hfm, sz, q, m, od⟩ := args
  cases prov
  case auto =>
    by_cases ht : pyTruthy keys.huggingface = true
    · cases hr : (generate_image_huggingface p (keys.huggingface.getD "") hfm od ts home r1 r2).result <;>
        simp [main_run, ht, hr]
    · simp [main_run, ht]
  case huggingface =>
    by_cases ht : pyTruthy keys.huggingface = true
    · cases hr : (generate_image_huggingface p (keys.huggingface.getD "") hfm od ts home r1 r2).result <;>
        simp [main_run, ht, hr]
    · simp [main_run, ht]
  case openai =>
    by_cases hk : pyTruthy keys.openai = false
    · simp [main_run, hk]
    · cases hr : (generate_image_openai p (keys.openai.getD "") (correctSize m sz)
          (correctQuality m q) m od ts home oc).result <;>
        simp [main_run, hk, hr]

/-- C1: at most one provider call per invocation; under `huggingface` and
`openai` only the named provider may be called, under `auto` only the free
provider; and in `auto` mode with a token and a failing free call the
process exits 1, never calls the paid provider, and prints the suggested
invocation with the original prompt embedded. -/
theorem provider_call_invariant (args : Args) (keys : Keys) (r1 r2 : HfResponse)
    (oc : OpenaiOutcome) (ts home : String) :
    (main_run args keys r1 r2 oc ts home).hfRuns.length
        + (main_run args keys r1 r2 oc ts home).oaRuns.length ≤ 1
    ∧ (args.provider = Provider.huggingface →
        (main_run args keys r1 r2 oc ts home).oaRuns = [])
    ∧ (args.provider = Provider.openai →
        (main_run args keys r1 r2 oc ts home).hfRuns = [])
    ∧ (args.provider = Provider.auto →
        (main_run args keys r1 r2 oc ts home).oaRuns = [])
    ∧ (args.provider = Provider.auto → pyTruthy keys.huggingface = true →
        (generate_image_huggingface args.prompt (keys.huggingface.getD "")
            args.hf_model args.output_dir ts home r1 r2).result = none →
        (main_run args keys r1 r2 oc ts home).exitCode = 1
        ∧ (main_run args keys r1 r2 oc ts home).oaRuns = []
        ∧ suggestOpenai args.prompt ∈ (main_run args keys r1 r2 oc ts home).output
        ∧ suggestOpenai args.prompt
            = "   python3 generate_image.py \"" ++ args.prompt ++ "\" --provider openai") := by
  obtain ⟨p, prov, hfm, sz, q, m, od⟩ := args
  refine ⟨?_, ?_, ?_, ?_, ?_⟩
  · cases prov
    case auto =>
      by_cases ht : pyTruthy keys.huggingface = true
      · cases hr : (generate_image_huggingface p (keys.huggingface.getD "") hfm od ts home r1 r2).result <;>
          simp [main_run, ht, hr]
      · simp [main_run, ht]
    case huggingface =>
      by_cases ht : pyTruthy keys.huggingface = true
      · cases hr : (generate_image_huggingface p (keys.huggingface.getD "") hfm od ts home r1 r2).result <;>
          simp [main_run, ht, hr]
      · simp [main_run, ht]
    case openai =>
      by_cases hk : pyTruthy keys.openai = false
      · simp [main_run, hk]
      · cases hr : (generate_image_openai p (keys.openai.getD "") (correctSize m sz)
            (correctQuality m q) m od ts home oc).result <;>
          simp [main_run, hk, hr]
  · intro hp
    simp only at hp
    subst hp
    by_cases ht : pyTruthy keys.huggingface = true
    · cases hr : (generate_image_huggingface p (keys.huggingface.getD "") hfm od ts home r1 r2).result <;>
        simp [main_run, ht, hr]
    · simp [main_run, ht]
  · intro hp
    simp only at hp
    subst hp
    by_cases hk : pyTruthy keys.openai = false
    · simp [main_run, hk]
    · cases hr : (generate_image_openai p (keys.openai.getD "") (correctSize m sz)
          (correctQuality m q) m od ts home oc).result <;>
        simp [main_run, hk, hr]
  · intro hp
    simp only at hp
    subst hp
    by_cases ht : pyTruthy keys.huggingface = true
    · cases hr : (generate_image_huggingface p (keys.huggingface.getD "") hfm od ts home r1 r2).result <;>
        simp [main_run, ht, hr]
    · simp [main_run, ht]
  · intro hp ht hres
    simp only at hp ht hres
    subst hp
    refine ⟨?_, ?_, ?_, rfl⟩
    · simp [main_run, ht, hres]
    · simp [main_run, ht, hres]
    · simp [main_run, ht, hres, List.mem_append]

/-- Sample inputs for the concrete witness instantiations. -/
def argsAutoSample : Args :=
  { prompt := "cat", provider := Provider.auto, hf_model := "m", size := "1024x1024",
    quality := "standard", model := "dall-e-2", output_dir := "out" }

def argsOaSample : Args :=
  { prompt := "cat", provider := Provider.openai, hf_model := "m", size := "1792x1024",
    quality := "hd", model := "dall-e-2", output_dir := "out" }

def keysHfSample : Keys := { openai := none, huggingface := some "tok" }

def keysOaSample : Keys := { openai := some "sk", huggingface := none }

def respErrSample : HfResponse :=
  { status := 500, content := [], jsonError := some (some "err") }

theorem provider_call_invariant_witness :
    (main_run argsAutoSample keysHfSample respErrSample respErrSample
        OpenaiOutcome.failure "TS" "/h").exitCode = 1
    ∧ (main_run argsAutoSample keysHfSample respErrSample respErrSample
        OpenaiOutcome.failure "TS" "/h").oaRuns = []
    ∧ suggestOpenai "cat" ∈ (main_run argsAutoSample keysHfSample respErrSample respErrSample
        OpenaiOutcome.failure "TS" "/h").output := by
  have h := (provider_call_invariant argsAutoSample keysHfSample respErrSample respErrSample
    OpenaiOutcome.failure "TS" "/h").2.2.2.2 rfl rfl rfl
  exact ⟨h.1, h.2.1, h.2.2.1⟩

/-- C3: for `providerMode=openai` with `model=dall-e-2`, an `hd` quality is
corrected to `standard` and an enlarged size to `1024x1024`, each with a
warning printed, and the corrected values — not the originals — are what
the paid-provider call receives. -/
theorem dalle2_corrections (args : Args) (keys : Keys) (r1 r2 : HfResponse)
    (oc : OpenaiOutcome) (ts home : String)
    (hp : args.provider = Provider.openai) (hk : pyTruthy keys.openai = true)
    (hm : args.model = "dall-e-2") :
    (args.quality = "hd" →
        ((main_run args keys r1 r2 oc ts home).oaCall).map OaCall.quality = some "standard"
        ∧ warnHd ∈ (main_run args keys r1 r2 oc ts home).output)
    ∧ ((args.size = "1792x1024" ∨ args.size = "1024x1792") →
        ((main_run args keys r1 r2 oc ts home).oaCall).map OaCall.size = some "1024x1024"
        ∧ warnSize ∈ (main_run args keys r1 r2 oc ts home).output)
    ∧ ((main_run args keys r1 r2 oc ts home).oaCall).map OaCall.quality
        = some (correctQuality args.model args.quality)
    ∧ ((main_run args keys r1 r2 oc ts home).oaCall).map OaCall.size
        = some (correctSize args.model args.size)
    ∧ (∀ orun ∈ (main_run args keys r1 r2 oc ts home).oaRuns,
        orun.request_params.size = correctSize args.model args.size) := by
  obtain ⟨p, prov, hfm, sz, q, m, od⟩ := args
  simp only at hp hk hm
  subst hp
  subst hm
  have hk' : ¬(pyTruthy keys.openai = false) := by rw [hk]; decide
  refine ⟨?_, ?_, ?_, ?_, ?_⟩
  · intro hq
    simp only at hq
    subst hq
    have hcq : correctQuality "dall-e-2" "hd" = "standard" := rfl
    cases hr : (generate_image_openai p (keys.openai.getD "") (correctSize "dall-e-2" sz)
        "standard" "dall-e-2" od ts home oc).result <;>
      simp [main_run, hk', hcq, hr, warnHd]
  · intro hs
    simp only at hs
    rcases hs with hs | hs <;> subst hs
    · have hcs : correctSize "dall-e-2" "1792x1024" = "1024x1024" := rfl
      cases hr : (generate_image_openai p (keys.openai.getD "") "1024x1024"
          (correctQuality "dall-e-2" q) "dall-e-2" od ts home oc).result <;>
        simp [main_run, hk', hcs, hr, warnSize]
    · have hcs : correctSize "dall-e-2" "1024x1792" = "1024x1024" := rfl
      cases hr : (generate_image_openai p (keys.openai.getD "") "1024x1024"
          (correctQuality "dall-e-2" q) "dall-e-2" od ts home oc).result <;>
        simp [main_run, hk', hcs, hr, warnSize]
  · cases hr : (generate_image_openai p (keys.openai.getD "") (correctSize "dall-e-2" sz)
        (correctQuality "dall-e-2" q) "dall-e-2" od ts home oc).result <;>
      simp [main_run, hk', hr]
  · cases hr : (generate_image_openai p (keys.openai.getD "") (correctSize "dall-e-2" sz)
        (correctQuality "dall-e-2" q) "dall-e-2" od ts home oc).result <;>
      simp [main_run, hk', hr]
  · cases hr : (generate_image_openai p (keys.openai.getD "") (correctSize "dall-e-2" sz)
        (correctQuality "dall-e-2" q) "dall-e-2" od ts home oc).result <;>
      simp [main_run, hk', hr, oa_request_size]

theorem dalle2_corrections_witness :
    ((main_run argsOaSample keysOaSample respErrSample respErrSample
        (OpenaiOutcome.ok "http://u" [7]) "TS" "/h").oaCall).map OaCall.quality
      = some "standard"
    ∧ ((main_run argsOaSample keysOaSample respErrSample respErrSample
        (OpenaiOutcome.ok "http://u" [7]) "TS" "/h").oaCall).map OaCall.size
      = some "1024x1024"
    ∧ warnHd ∈ (main_run argsOaSample keysOaSample respErrSample respErrSample
        (OpenaiOutcome.ok "http://u" [7]) "TS" "/h").output := by
  have h := dalle2_corrections argsOaSample keysOaSample respErrSample respErrSample
    (OpenaiOutcome.ok "http://u" [7]) "TS" "/h" rfl rfl rfl
  exact ⟨(h.1 rfl).1, (h.2.1 (Or.inl rfl)).1, (h.1 rfl).2⟩

end GenImage
